import Mathlib

/-!
# Archestra Terraform provider: role and user-role-assignment reconcilers

A shallow embedding of `internal/provider/resource_user_role_assignment.go`,
`internal/provider/resource_role.go`, `internal/provider/datasource_role.go` and
the hand-written client methods of `internal/client/manual_extensions.go`.

Conventions of the embedding

* A Go `(value, error)` pair is an `Except GoString value`; the error is kept as
  the text that `%s` prints.
* A provider operation returns an `Outcome`: the response it leaves behind
  (diagnostics and state) together with the list of client operations it invoked.
* `req.Plan.Get`, `req.State.Get` and `resp.State.Set` move a typed model in and
  out of the framework without diagnostics; the request context is not modelled.
* Everything the client obtains from outside the repository (the HTTP round trip,
  `encoding/json`, `uuid.Parse`, the generated role operations) is a field of the
  client value, so statements quantify over every behaviour of those parts.
-/

namespace Archestra

/-! ## Go values -/

/-- Go's `string`, held as a sequence of characters. -/
abbrev GoString := String

/-- A Go slice: `null` is the nil slice, `of xs` a non-nil slice holding `xs`. -/
inductive Slice (α : Type) where
  | null : Slice α
  | of (elems : List α) : Slice α
deriving DecidableEq, Repr

/-- The elements a `range` loop visits, in order. -/
def Slice.toList {α : Type} : Slice α → List α
  | .null => []
  | .of xs => xs

/-- Go's `append(s, x)`: the result is never the nil slice. -/
def Slice.append {α : Type} (s : Slice α) (x : α) : Slice α :=
  .of (s.toList ++ [x])

/-- The pieces of a character sequence between occurrences of `sep`. -/
def splitChars (sep : Char) : List Char → List (List Char)
  | [] => [[]]
  | c :: cs =>
    if c = sep then [] :: splitChars sep cs
    else
      match splitChars sep cs with
      | [] => [[c]]
      | p :: ps => (c :: p) :: ps

/-- Go's `strings.Split(s, sep)` for a separator of one character (the source
calls it with `":"` only): the substrings of `s` between the separators, so
`n` separators give `n + 1` pieces, empty pieces included. -/
def strings.Split (s : GoString) (sep : Char) : List GoString :=
  (splitChars sep s.data).map String.mk

/-! ## Terraform framework values -/

/-- The framework's `types.String`: null, unknown, or a known value. -/
inductive types.String where
  | null : types.String
  | unknown : types.String
  | value (s : GoString) : types.String
deriving DecidableEq, Repr

/-- `types.StringValue(s)`. -/
abbrev types.StringValue (s : GoString) : types.String := .value s

/-- `types.StringNull()`. -/
abbrev types.StringNull : types.String := .null

/-- `ValueString()`: the known value, and `""` for null and unknown. -/
def types.String.ValueString : types.String → GoString
  | .value s => s
  | _ => ""

/-- `IsNull()`. -/
def types.String.IsNull : types.String → Bool
  | .null => true
  | _ => false

/-- Severity of a diagnostic. -/
inductive diag.Severity where
  | Error
  | Warning
deriving DecidableEq, Repr

/-- One entry of `resp.Diagnostics`. -/
structure diag.Diagnostic where
  Severity : diag.Severity
  Summary : GoString
  Detail : GoString
deriving DecidableEq, Repr

/-- `resp.Diagnostics`. -/
abbrev diag.Diagnostics := List diag.Diagnostic

/-- `Diagnostics.AddError(summary, detail)`. -/
def diag.AddError (ds : diag.Diagnostics) (summary detail : GoString) : diag.Diagnostics :=
  ds ++ [{ Severity := .Error, Summary := summary, Detail := detail }]

/-- `Diagnostics.HasError()`. -/
def diag.HasError (ds : diag.Diagnostics) : Bool :=
  ds.any (fun d => d.Severity == .Error)

/-- The response of Create, Read, Update and Delete: diagnostics and the state
object, `none` being the removed (null) state. -/
structure resource.Response (M : Type) where
  Diagnostics : diag.Diagnostics
  State : Option M
deriving Repr

/-! ## Client types -/

/-- Modelled from the spec: the identifier type `openapi_types.UUID` is declared
outside the source tree; the spec describes a role identity as the string form of
a UUID, so a UUID is held as that string form. -/
structure openapi_types.UUID where
  text : GoString
deriving DecidableEq, Repr

/-- The zero value of a UUID, which is what a freshly declared Go variable holds. -/
def openapi_types.UUID.zero : openapi_types.UUID :=
  { text := "00000000-0000-0000-0000-000000000000" }

/-- The `String()` method of a UUID. -/
def openapi_types.UUID.String (u : openapi_types.UUID) : GoString := u.text

/-- Modelled from the spec: the generated `client.Role` is declared outside the
source tree; the spec lays a role out as id, name, optional description and a
sequence of permission strings, and the source reads exactly these fields (the
identifier as `role.Id` in the role resource and `role.ID` in the assignment
resource). -/
structure client.Role where
  Id : openapi_types.UUID
  Name : GoString
  Description : Option GoString
  Permissions : Slice GoString
deriving DecidableEq, Repr

/-- `client.UserRoleAssignment`. -/
structure client.UserRoleAssignment where
  UserID : openapi_types.UUID
  RoleID : openapi_types.UUID
deriving DecidableEq, Repr

/-- `client.CreateUserRoleAssignmentJSONBody`. -/
structure client.CreateUserRoleAssignmentJSONBody where
  RoleID : openapi_types.UUID
deriving DecidableEq, Repr

/-- The generated `client.CreateRoleJSONRequestBody`, as the source fills it. -/
structure client.CreateRoleJSONRequestBody where
  Name : GoString
  Description : Option GoString
  Permissions : Slice GoString
deriving DecidableEq, Repr

/-- The generated `client.UpdateRoleJSONRequestBody`, as the source fills it:
every field is a pointer. -/
structure client.UpdateRoleJSONRequestBody where
  Name : Option GoString
  Description : Option GoString
  Permissions : Option (Slice GoString)
deriving DecidableEq, Repr

/-- An outgoing `http.Request`. -/
structure http.Request where
  Method : GoString
  URL : GoString
  Body : Option GoString
  Header : List (GoString × GoString)
deriving DecidableEq, Repr

/-- An incoming `http.Response`. -/
structure http.Response where
  StatusCode : Int
  ContentLength : Int
  Body : GoString
deriving DecidableEq, Repr

/-- `client.GetUserRolesResponse`. -/
structure client.GetUserRolesResponse where
  HTTPResponse : Option http.Response
  JSON200 : Option (Slice client.Role)
  JSON404 : Option Unit
deriving DecidableEq, Repr

/-- `client.UserRoleAssignmentResponse`. -/
structure client.UserRoleAssignmentResponse where
  HTTPResponse : Option http.Response
  JSON200 : Option client.UserRoleAssignment
  JSON404 : Option Unit
deriving DecidableEq, Repr

/-- The generated response of the role operations, reduced to what the source
reads: the status code and the decoded payloads. -/
structure client.RoleResponse where
  Status : Int
  JSON200 : Option client.Role
  JSON201 : Option client.Role
deriving DecidableEq, Repr

/-- `StatusCode()` of a generated role response. -/
def client.RoleResponse.StatusCode (r : client.RoleResponse) : Int := r.Status

/-- `client.ClientWithResponses` with everything it reaches outside the source
tree. `Server` is the base URL; `Do` is `c.Client.Do`; `requestError` is the error
of `http.NewRequest` for a method and URL, if any; the `Decode`, `Marshal` and
`ParseUUID` fields stand for `encoding/json` and `uuid.Parse`; the four
`...RoleWithResponse` fields are the generated role operations, keyed by the
identifier string the source passes (Read and Update wrap its JSON encoding into
the union parameter). -/
structure client.ClientWithResponses where
  Server : GoString
  Do : http.Request → Except GoString http.Response
  requestError : GoString → GoString → Option GoString
  DecodeRoles : GoString → Except GoString (Slice client.Role)
  DecodeAssignment : GoString → client.UserRoleAssignment → client.UserRoleAssignment
  MarshalAssignmentBody : client.CreateUserRoleAssignmentJSONBody → Except GoString GoString
  ParseUUID : GoString → Except GoString openapi_types.UUID
  CreateRoleWithResponse : client.CreateRoleJSONRequestBody → Except GoString client.RoleResponse
  GetRoleWithResponse : GoString → Except GoString client.RoleResponse
  UpdateRoleWithResponse :
    GoString → client.UpdateRoleJSONRequestBody → Except GoString client.RoleResponse
  DeleteRoleWithResponse : GoString → Except GoString client.RoleResponse

/-- `http.NewRequest(method, url, body)`. -/
def http.NewRequest (c : client.ClientWithResponses) (method url : GoString)
    (body : Option GoString) : Except GoString http.Request :=
  match c.requestError method url with
  | some err => .error err
  | none => .ok { Method := method, URL := url, Body := body, Header := [] }

/-- `req.Header.Set(key, value)`. -/
def http.Request.SetHeader (req : http.Request) (key value : GoString) : http.Request :=
  { req with Header := (req.Header.filter (fun kv => kv.1 != key)) ++ [(key, value)] }

/-- `StatusCode()` of `GetUserRolesResponse`. -/
def client.GetUserRolesResponse.StatusCode (r : client.GetUserRolesResponse) : Int :=
  match r.HTTPResponse with
  | some h => h.StatusCode
  | none => 0

/-- `StatusCode()` of `UserRoleAssignmentResponse`. -/
def client.UserRoleAssignmentResponse.StatusCode (r : client.UserRoleAssignmentResponse) : Int :=
  match r.HTTPResponse with
  | some h => h.StatusCode
  | none => 0

/-- `ClientWithResponses.GetUserRolesWithResponse`. -/
def client.ClientWithResponses.GetUserRolesWithResponse (c : client.ClientWithResponses)
    (userId : GoString) : Except GoString client.GetUserRolesResponse :=
  match http.NewRequest c "GET" (c.Server ++ "/users/" ++ userId ++ "/roles") none with
  | .error err => .error err
  | .ok req =>
    match c.Do req with
    | .error err => .error err
    | .ok resp =>
      let result : client.GetUserRolesResponse :=
        { HTTPResponse := some resp, JSON200 := none, JSON404 := none }
      if resp.StatusCode = 200 then
        match c.DecodeRoles resp.Body with
        | .error err => .error err
        | .ok roles => .ok { result with JSON200 := some roles }
      else if resp.StatusCode = 404 then
        .ok { result with JSON404 := some () }
      else
        .ok result

/-- `ClientWithResponses.CreateUserRoleAssignmentWithResponse`. -/
def client.ClientWithResponses.CreateUserRoleAssignmentWithResponse
    (c : client.ClientWithResponses) (userId : GoString)
    (body : client.CreateUserRoleAssignmentJSONBody) :
    Except GoString client.UserRoleAssignmentResponse :=
  match c.MarshalAssignmentBody body with
  | .error err => .error err
  | .ok buf =>
    match http.NewRequest c "POST" (c.Server ++ "/users/" ++ userId ++ "/roles") (some buf) with
    | .error err => .error err
    | .ok req0 =>
      let req := req0.SetHeader "Content-Type" "application/json"
      match c.Do req with
      | .error err => .error err
      | .ok resp =>
        let result : client.UserRoleAssignmentResponse :=
          { HTTPResponse := some resp, JSON200 := none, JSON404 := none }
        if resp.StatusCode = 200 ∨ resp.StatusCode = 201 then
          let zero : client.UserRoleAssignment :=
            { UserID := openapi_types.UUID.zero, RoleID := openapi_types.UUID.zero }
          let assignment :=
            if resp.ContentLength > 0 then
              let decoded := c.DecodeAssignment resp.Body zero
              match c.ParseUUID userId with
              | .ok uID => { decoded with UserID := uID }
              | .error _ => decoded
            else zero
          .ok { result with JSON200 := some assignment }
        else
          .ok result

/-- `ClientWithResponses.DeleteUserRoleAssignmentWithResponse`. -/
def client.ClientWithResponses.DeleteUserRoleAssignmentWithResponse
    (c : client.ClientWithResponses) (userId roleId : GoString) :
    Except GoString client.UserRoleAssignmentResponse :=
  match http.NewRequest c "DELETE"
      (c.Server ++ "/users/" ++ userId ++ "/roles/" ++ roleId) none with
  | .error err => .error err
  | .ok req =>
    match c.Do req with
    | .error err => .error err
    | .ok resp =>
      let result : client.UserRoleAssignmentResponse :=
        { HTTPResponse := some resp, JSON200 := none, JSON404 := none }
      if resp.StatusCode = 404 then
        .ok { result with JSON404 := some () }
      else
        .ok result

/-! ## Observing client use -/

/-- One invocation of a client operation, with its arguments. -/
inductive GatewayCall where
  | GetUserRoles (userId : GoString)
  | CreateUserRoleAssignment (userId : GoString) (body : client.CreateUserRoleAssignmentJSONBody)
  | DeleteUserRoleAssignment (userId roleId : GoString)
  | CreateRole (body : client.CreateRoleJSONRequestBody)
  | GetRole (id : GoString)
  | UpdateRole (id : GoString) (body : client.UpdateRoleJSONRequestBody)
  | DeleteRole (id : GoString)
deriving DecidableEq, Repr

/-- What a provider operation leaves behind: the client operations it invoked, in
order, and the response. -/
structure Outcome (R : Type) where
  Calls : List GatewayCall
  Resp : R
deriving Repr

/-! ## The user-role-assignment resource -/

/-- `UserRoleAssignmentResourceModel`. -/
structure UserRoleAssignmentResourceModel where
  ID : types.String
  UserID : types.String
  RoleID : types.String
deriving DecidableEq, Repr

/-- The three attributes of the assignment schema, as `path.Root` addresses them. -/
inductive AssignmentAttribute where
  | id
  | user_id
  | role_id
deriving DecidableEq, Repr

/-- The state an import starts from: no attribute is set. -/
def UserRoleAssignmentResourceModel.empty : UserRoleAssignmentResourceModel :=
  { ID := .null, UserID := .null, RoleID := .null }

/-- `State.SetAttribute(ctx, path.Root(attr), value)` with a Go string value. -/
def UserRoleAssignmentResourceModel.SetAttribute (st : UserRoleAssignmentResourceModel)
    (attr : AssignmentAttribute) (value : GoString) : UserRoleAssignmentResourceModel :=
  match attr with
  | .id => { st with ID := .value value }
  | .user_id => { st with UserID := .value value }
  | .role_id => { st with RoleID := .value value }

/-- The response of ImportState: diagnostics and the state being built attribute
by attribute. -/
structure resource.ImportStateResponse where
  Diagnostics : diag.Diagnostics
  State : UserRoleAssignmentResourceModel
deriving DecidableEq, Repr

/-- `UserRoleAssignmentResource`: the receiver holds the client. -/
structure UserRoleAssignmentResource where
  client : client.ClientWithResponses

/-- `UserRoleAssignmentResource.Create`. The body between reading the plan and
building the identifier is comments only: the client is not used. The identifier
is `fmt.Sprintf("%s:%s", userID, roleID)`. -/
def UserRoleAssignmentResource.Create (_r : UserRoleAssignmentResource)
    (plan : UserRoleAssignmentResourceModel) :
    Outcome (resource.Response UserRoleAssignmentResourceModel) :=
  let data := plan
  let userID := data.UserID.ValueString
  let roleID := data.RoleID.ValueString
  let data := { data with ID := types.StringValue (userID ++ ":" ++ roleID) }
  { Calls := [], Resp := { Diagnostics := [], State := some data } }

/-- The loop of `Read` over the listing: stops at the first role whose identifier
prints as `roleID`. -/
def UserRoleAssignmentResource.Read.found (roleID : GoString) : List client.Role → Bool
  | [] => false
  | role :: rest =>
    if role.Id.String = roleID then true
    else UserRoleAssignmentResource.Read.found roleID rest

/-- `UserRoleAssignmentResource.Read`. The response state starts as the stored
state; `none` is `resp.State.RemoveResource`. -/
def UserRoleAssignmentResource.Read (r : UserRoleAssignmentResource)
    (state : UserRoleAssignmentResourceModel) :
    Outcome (resource.Response UserRoleAssignmentResourceModel) :=
  let data := state
  let userID := data.UserID.ValueString
  let roleID := data.RoleID.ValueString
  let calls := [GatewayCall.GetUserRoles userID]
  match r.client.GetUserRolesWithResponse userID with
  | .error err =>
    { Calls := calls,
      Resp := { Diagnostics := diag.AddError [] "API Error" ("Unable to get user roles: " ++ err),
                State := some state } }
  | .ok rolesResp =>
    if rolesResp.StatusCode = 404 then
      { Calls := calls, Resp := { Diagnostics := [], State := none } }
    else
      match rolesResp.JSON200 with
      | none =>
        { Calls := calls,
          Resp := { Diagnostics := diag.AddError [] "Unexpected API Response"
                      ("Expected 200 OK, got " ++ toString rolesResp.StatusCode),
                    State := some state } }
      | some roles =>
        let found := UserRoleAssignmentResource.Read.found roleID roles.toList
        if !found then
          { Calls := calls, Resp := { Diagnostics := [], State := none } }
        else
          { Calls := calls, Resp := { Diagnostics := [], State := some data } }

/-- `UserRoleAssignmentResource.Delete`. The response of the client call is
discarded; only its error is looked at. -/
def UserRoleAssignmentResource.Delete (r : UserRoleAssignmentResource)
    (state : UserRoleAssignmentResourceModel) :
    Outcome (resource.Response UserRoleAssignmentResourceModel) :=
  let data := state
  let userID := data.UserID.ValueString
  let roleID := data.RoleID.ValueString
  let calls := [GatewayCall.DeleteUserRoleAssignment userID roleID]
  match r.client.DeleteUserRoleAssignmentWithResponse userID roleID with
  | .error err =>
    { Calls := calls,
      Resp := { Diagnostics := diag.AddError [] "API Error" ("Unable to delete assignment: " ++ err),
                State := some state } }
  | .ok _ =>
    { Calls := calls, Resp := { Diagnostics := [], State := some state } }

/-- `UserRoleAssignmentResource.ImportState`. The two-element pattern is the
`len(idParts) != 2` test together with `idParts[0]` and `idParts[1]`. -/
def UserRoleAssignmentResource.ImportState (_r : UserRoleAssignmentResource)
    (reqID : GoString) : Outcome resource.ImportStateResponse :=
  let state := UserRoleAssignmentResourceModel.empty
  match strings.Split reqID ':' with
  | [part0, part1] =>
    let state := state.SetAttribute .user_id part0
    let state := state.SetAttribute .role_id part1
    let state := state.SetAttribute .id reqID
    { Calls := [], Resp := { Diagnostics := [], State := state } }
  | _ =>
    { Calls := [],
      Resp := { Diagnostics := diag.AddError [] "Invalid Import ID"
                  "ID must be in format 'userID:roleID'",
                State := state } }

/-! ## The role resource -/

/-- `RoleResourceModel`. -/
structure RoleResourceModel where
  ID : types.String
  Name : types.String
  Description : types.String
  Permissions : Slice types.String
deriving DecidableEq, Repr

/-- `RoleResource`: the receiver holds the client. -/
structure RoleResource where
  client : client.ClientWithResponses

/-- The loop of Create and Update that turns the desired permissions into the
request body's list: it starts from the nil slice (`var permissions []T`) and
appends `p.ValueString()` for each element. -/
def RoleResource.requestPermissions (desired : Slice types.String) : Slice GoString :=
  desired.toList.foldl (fun acc p => acc.append p.ValueString) .null

/-- The loop of Create, Read and Update that fills `data.Permissions` from the
payload: it starts from `[]types.String{}` and appends `types.StringValue(string(p))`
for each element. -/
def RoleResource.statePermissions (role : client.Role) : Slice types.String :=
  role.Permissions.toList.foldl (fun acc p => acc.append (types.StringValue p)) (.of [])

/-- `RoleResource.Create`. The response state starts as the null state. -/
def RoleResource.Create (r : RoleResource) (plan : RoleResourceModel) :
    Outcome (resource.Response RoleResourceModel) :=
  let data := plan
  let permissions := RoleResource.requestPermissions data.Permissions
  let requestBody : client.CreateRoleJSONRequestBody :=
    { Name := data.Name.ValueString, Permissions := permissions, Description := none }
  let requestBody :=
    if !data.Description.IsNull then
      { requestBody with Description := some data.Description.ValueString }
    else requestBody
  let calls := [GatewayCall.CreateRole requestBody]
  match r.client.CreateRoleWithResponse requestBody with
  | .error err =>
    { Calls := calls,
      Resp := { Diagnostics := diag.AddError [] "API Error" ("Unable to create role: " ++ err),
                State := none } }
  | .ok apiResp =>
    match apiResp.JSON201 with
    | none =>
      { Calls := calls,
        Resp := { Diagnostics := diag.AddError [] "Unexpected API Response"
                    ("Expected 201 Created, got status " ++ toString apiResp.StatusCode),
                  State := none } }
    | some role =>
      let data := { data with ID := types.StringValue role.Id.String }
      let data := { data with Name := types.StringValue role.Name }
      let data :=
        match role.Description with
        | some d => { data with Description := types.StringValue d }
        | none => { data with Description := types.StringNull }
      let data := { data with Permissions := RoleResource.statePermissions role }
      { Calls := calls, Resp := { Diagnostics := [], State := some data } }

/-- `RoleResource.Read`. The response state starts as the stored state; `none` is
`resp.State.RemoveResource`. -/
def RoleResource.Read (r : RoleResource) (state : RoleResourceModel) :
    Outcome (resource.Response RoleResourceModel) :=
  let data := state
  let id := data.ID.ValueString
  let calls := [GatewayCall.GetRole id]
  match r.client.GetRoleWithResponse id with
  | .error err =>
    { Calls := calls,
      Resp := { Diagnostics := diag.AddError [] "API Error" ("Unable to read role: " ++ err),
                State := some state } }
  | .ok apiResp =>
    if apiResp.StatusCode = 404 then
      { Calls := calls, Resp := { Diagnostics := [], State := none } }
    else
      match apiResp.JSON200 with
      | none =>
        { Calls := calls,
          Resp := { Diagnostics := diag.AddError [] "Unexpected API Response"
                      ("Expected 200 OK, got status " ++ toString apiResp.StatusCode),
                    State := some state } }
      | some role =>
        let data := { data with Name := types.StringValue role.Name }
        let data :=
          match role.Description with
          | some d => { data with Description := types.StringValue d }
          | none => { data with Description := types.StringNull }
        let data := { data with Permissions := RoleResource.statePermissions role }
        { Calls := calls, Resp := { Diagnostics := [], State := some data } }

/-- `RoleResource.Update`. The model is read from the plan; the response state
starts as the prior state. When the payload has no description the model keeps
the description it was read with: the source has no `else` branch here. -/
def RoleResource.Update (r : RoleResource) (plan prior : RoleResourceModel) :
    Outcome (resource.Response RoleResourceModel) :=
  let data := plan
  let permissions := RoleResource.requestPermissions data.Permissions
  let name := data.Name.ValueString
  let requestBody : client.UpdateRoleJSONRequestBody :=
    { Name := some name, Permissions := some permissions, Description := none }
  let requestBody :=
    if !data.Description.IsNull then
      { requestBody with Description := some data.Description.ValueString }
    else requestBody
  let id := data.ID.ValueString
  let calls := [GatewayCall.UpdateRole id requestBody]
  match r.client.UpdateRoleWithResponse id requestBody with
  | .error err =>
    { Calls := calls,
      Resp := { Diagnostics := diag.AddError [] "API Error" ("Unable to update role: " ++ err),
                State := some prior } }
  | .ok apiResp =>
    match apiResp.JSON200 with
    | none =>
      { Calls := calls,
        Resp := { Diagnostics := diag.AddError [] "Unexpected API Response"
                    ("Expected 200 OK, got status " ++ toString apiResp.StatusCode),
                  State := some prior } }
    | some role =>
      let data := { data with Name := types.StringValue role.Name }
      let data :=
        match role.Description with
        | some d => { data with Description := types.StringValue d }
        | none => data
      let data := { data with Permissions := RoleResource.statePermissions role }
      { Calls := calls, Resp := { Diagnostics := [], State := some data } }

/-- `RoleResource.Delete`. The state object is left as it was. -/
def RoleResource.Delete (r : RoleResource) (state : RoleResourceModel) :
    Outcome (resource.Response RoleResourceModel) :=
  let data := state
  let calls := [GatewayCall.DeleteRole data.ID.ValueString]
  match r.client.DeleteRoleWithResponse data.ID.ValueString with
  | .error err =>
    { Calls := calls,
      Resp := { Diagnostics := diag.AddError [] "API Error" ("Unable to delete role: " ++ err),
                State := some state } }
  | .ok apiResp =>
    if apiResp.StatusCode ≠ 200 ∧ apiResp.StatusCode ≠ 204 ∧ apiResp.StatusCode ≠ 404 then
      { Calls := calls,
        Resp := { Diagnostics := diag.AddError [] "Unexpected API Response"
                    ("Expected 200, 204 or 404, got status " ++ toString apiResp.StatusCode),
                  State := some state } }
    else
      { Calls := calls, Resp := { Diagnostics := [], State := some state } }

/-- The request body that `Create` hands to `CreateRoleWithResponse`: the name, the
list built by the permissions loop, and the description when the desired one is
not null. -/
def RoleResource.createRequestBody (data : RoleResourceModel) :
    client.CreateRoleJSONRequestBody :=
  let permissions := RoleResource.requestPermissions data.Permissions
  let requestBody : client.CreateRoleJSONRequestBody :=
    { Name := data.Name.ValueString, Permissions := permissions, Description := none }
  if !data.Description.IsNull then
    { requestBody with Description := some data.Description.ValueString }
  else requestBody

/-- The request body that `Update` hands to `UpdateRoleWithResponse`: pointers to
the name and to the list built by the permissions loop, and a pointer to the
description when the desired one is not null. -/
def RoleResource.updateRequestBody (data : RoleResourceModel) :
    client.UpdateRoleJSONRequestBody :=
  let permissions := RoleResource.requestPermissions data.Permissions
  let name := data.Name.ValueString
  let requestBody : client.UpdateRoleJSONRequestBody :=
    { Name := some name, Permissions := some permissions, Description := none }
  if !data.Description.IsNull then
    { requestBody with Description := some data.Description.ValueString }
  else requestBody

/-- A desired role record in the sense of the data model: a name, an optional
description and a sequence of permission strings, held in the plan as known
values (a missing description as null); `id` is computed, so the plan may hold
any value for it. -/
def desiredRole (planID : types.String) (name : GoString) (description : Option GoString)
    (permissions : List GoString) : RoleResourceModel :=
  { ID := planID,
    Name := .value name,
    Description :=
      match description with
      | some d => .value d
      | none => .null,
    Permissions := .of (permissions.map types.String.value) }

/-! ## The role data source -/

/-- `RoleDataSourceModel`. -/
structure RoleDataSourceModel where
  ID : types.String
  Name : types.String
  Description : types.String
  Permissions : Slice types.String
deriving DecidableEq, Repr

/-- `RoleDataSource`: the receiver holds the client. -/
structure RoleDataSource where
  client : client.ClientWithResponses

/-- `RoleDataSource.Read`. The model is read from the configuration; the response
state starts as the null state. -/
def RoleDataSource.Read (d : RoleDataSource) (config : RoleDataSourceModel) :
    Outcome (resource.Response RoleDataSourceModel) :=
  let data := config
  let id := data.ID.ValueString
  let calls := [GatewayCall.GetRole id]
  match d.client.GetRoleWithResponse id with
  | .error err =>
    { Calls := calls,
      Resp := { Diagnostics := diag.AddError [] "API Error"
                  ("Unable to read role, got error: " ++ err),
                State := none } }
  | .ok roleResp =>
    if roleResp.StatusCode = 404 then
      { Calls := calls,
        Resp := { Diagnostics := diag.AddError [] "Not Found"
                    ("Role with ID " ++ data.ID.ValueString ++ " not found"),
                  State := none } }
    else
      match roleResp.JSON200 with
      | none =>
        { Calls := calls,
          Resp := { Diagnostics := diag.AddError [] "Unexpected API Response"
                      ("Expected 200 OK, got status " ++ toString roleResp.StatusCode),
                    State := none } }
      | some role =>
        let data := { data with Name := types.StringValue role.Name }
        let data :=
          match role.Description with
          | some d => { data with Description := types.StringValue d }
          | none => { data with Description := types.StringNull }
        let data := { data with Permissions := RoleResource.statePermissions role }
        { Calls := calls, Resp := { Diagnostics := [], State := some data } }

/-! ## Concrete clients used to evaluate the operations -/

/-- A client whose transport answers every request with the given status and an
empty body, whose listing decodes to `roles`, and whose role operations answer
`roleResp`. -/
def stubClient (status : Int) (roles : Slice client.Role) (roleResp : client.RoleResponse) :
    client.ClientWithResponses where
  Server := "https://archestra.example"
  Do := fun _ => .ok { StatusCode := status, ContentLength := 0, Body := "" }
  requestError := fun _ _ => none
  DecodeRoles := fun _ => .ok roles
  DecodeAssignment := fun _ a => a
  MarshalAssignmentBody := fun b => .ok b.RoleID.String
  ParseUUID := fun s => .ok { text := s }
  CreateRoleWithResponse := fun _ => .ok roleResp
  GetRoleWithResponse := fun _ => .ok roleResp
  UpdateRoleWithResponse := fun _ _ => .ok roleResp
  DeleteRoleWithResponse := fun _ => .ok roleResp

/-- A role identifier in the canonical text form of a UUID. -/
def sampleRoleID : GoString := "11111111-1111-1111-1111-111111111111"

/-- A role payload with a description. -/
def sampleRole : client.Role :=
  { Id := { text := sampleRoleID }, Name := "viewer", Description := some "read-only access",
    Permissions := .of ["agents:read"] }

/-- The same role as the remote side reports it without a description. -/
def sampleRoleBare : client.Role :=
  { sampleRole with Description := none }

/-- A stored assignment of `sampleRoleID` to user `u1`. -/
def sampleAssignment : UserRoleAssignmentResourceModel :=
  { ID := .value ("u1:" ++ sampleRoleID), UserID := .value "u1", RoleID := .value sampleRoleID }

/-- A stored role record whose name and description differ from `sampleRole`. -/
def sampleStoredRole : RoleResourceModel :=
  { ID := .value sampleRoleID, Name := .value "old name", Description := .value "old text",
    Permissions := .of [.value "agents:write", .value "mcp_servers:read"] }

/-- A desired role record with a description. -/
def samplePlannedRole : RoleResourceModel :=
  { ID := .value sampleRoleID, Name := .value "viewer", Description := .value "read-only access",
    Permissions := .of [.value "agents:read"] }

/-- A client whose every operation fails in transport with `msg`. -/
def failingClient (msg : GoString) : client.ClientWithResponses where
  Server := "https://archestra.example"
  Do := fun _ => .error msg
  requestError := fun _ _ => none
  DecodeRoles := fun _ => .error msg
  DecodeAssignment := fun _ a => a
  MarshalAssignmentBody := fun b => .ok b.RoleID.String
  ParseUUID := fun s => .ok { text := s }
  CreateRoleWithResponse := fun _ => .error msg
  GetRoleWithResponse := fun _ => .error msg
  UpdateRoleWithResponse := fun _ _ => .error msg
  DeleteRoleWithResponse := fun _ => .error msg

/-- A client whose create-role operation answers 201 with the name, description
and permissions of the body it received, under the identifier `id`; every other
operation fails in transport. -/
def echoClient (id : GoString) : client.ClientWithResponses :=
  { failingClient "offline" with
    CreateRoleWithResponse := fun body =>
      .ok { Status := 201, JSON200 := none,
            JSON201 := some { Id := { text := id }, Name := body.Name,
                              Description := body.Description,
                              Permissions := body.Permissions } } }

/-- A client whose update-role operation answers `roleResp` when it is called with
exactly the identifier `id` and the body `body`, and fails with
`"unexpected request"` on any other argument; every other operation fails in
transport. -/
def exactingClient (id : GoString) (body : client.UpdateRoleJSONRequestBody)
    (roleResp : client.RoleResponse) : client.ClientWithResponses :=
  { failingClient "offline" with
    UpdateRoleWithResponse := fun i b =>
      if i = id ∧ b = body then .ok roleResp else .error "unexpected request" }

/-- A desired role record whose permission list holds a null element, which the
schema (a list of strings without validators) admits; `planID` is the `id` the
plan holds. -/
def sampleNullElementRole (planID : types.String) : RoleResourceModel :=
  { ID := planID, Name := .value "Test Role", Description := .value "Test Description",
    Permissions := .of [.value "agents:read", .null] }

/-! ## Splitting -/

theorem splitChars_of_not_mem (sep : Char) (l : List Char) (h : sep ∉ l) :
    splitChars sep l = [l] := by
  induction l with
  | nil => rfl
  | cons c cs ih =>
    have hc : c ≠ sep := fun e => h (by simp [e])
    have hcs : sep ∉ cs := fun m => h (List.mem_cons_of_mem _ m)
    simp [splitChars, hc, ih hcs]

theorem splitChars_append_sep (sep : Char) (a b : List Char) (h : sep ∉ a) :
    splitChars sep (a ++ sep :: b) = a :: splitChars sep b := by
  induction a with
  | nil => simp [splitChars]
  | cons c cs ih =>
    have hc : c ≠ sep := fun e => h (by simp [e])
    have hcs : sep ∉ cs := fun m => h (List.mem_cons_of_mem _ m)
    simp [splitChars, hc, ih hcs]

theorem Split_composite (a b : GoString) (ha : ':' ∉ a.data) (hb : ':' ∉ b.data) :
    strings.Split (a ++ ":" ++ b) ':' = [a, b] := by
  have hdata : (a ++ ":" ++ b).data = a.data ++ ':' :: b.data := by
    simp [String.data_append]
  simp [strings.Split, hdata, splitChars_append_sep _ _ _ ha, splitChars_of_not_mem _ _ hb]

/-! ## Composite identifiers: Create and ImportState of the assignment -/

/-- C1: for non-empty `a` and `b` without `:`, assignment Create builds the
identifier `a ++ ":" ++ b`, and ImportState of that identifier reports no
diagnostic and sets `user_id = a`, `role_id = b` and `id` to the same string. -/
theorem assignment_import_decodes_created_id (r : UserRoleAssignmentResource)
    (planID : types.String) (a b : GoString)
    (ha : a ≠ "") (hb : b ≠ "") (hac : ':' ∉ a.data) (hbc : ':' ∉ b.data) :
    (UserRoleAssignmentResource.Create r
        { ID := planID, UserID := .value a, RoleID := .value b }).Resp.State
      = some { ID := .value (a ++ ":" ++ b), UserID := .value a, RoleID := .value b }
    ∧ (UserRoleAssignmentResource.ImportState r (a ++ ":" ++ b)).Resp
      = { Diagnostics := [],
          State := { ID := .value (a ++ ":" ++ b), UserID := .value a, RoleID := .value b } } := by
  have _ := ha
  have _ := hb
  refine ⟨rfl, ?_⟩
  simp [UserRoleAssignmentResource.ImportState, Split_composite a b hac hbc,
    UserRoleAssignmentResourceModel.SetAttribute, UserRoleAssignmentResourceModel.empty]

/-- C1 at `a = "u1"`, `b = "r1"`: importing `"u1:r1"` yields `user_id = "u1"` and
`role_id = "r1"`. -/
theorem assignment_import_decodes_created_id_witness :
    (UserRoleAssignmentResource.Create ⟨failingClient "offline"⟩
        { ID := .unknown, UserID := .value "u1", RoleID := .value "r1" }).Resp.State
      = some { ID := .value "u1:r1", UserID := .value "u1", RoleID := .value "r1" }
    ∧ (UserRoleAssignmentResource.ImportState ⟨failingClient "offline"⟩ "u1:r1").Resp
      = { Diagnostics := [],
          State := { ID := .value "u1:r1", UserID := .value "u1", RoleID := .value "r1" } } :=
  assignment_import_decodes_created_id ⟨failingClient "offline"⟩ .unknown "u1" "r1"
    (by decide) (by decide) (by decide) (by decide)

/-! ## Read of the assignment -/

theorem Read.found_iff (roleID : GoString) (roles : List client.Role) :
    UserRoleAssignmentResource.Read.found roleID roles = true
      ↔ ∃ role ∈ roles, role.Id.String = roleID := by
  induction roles with
  | nil => simp [UserRoleAssignmentResource.Read.found]
  | cons role rest ih =>
    unfold UserRoleAssignmentResource.Read.found
    by_cases h : role.Id.String = roleID
    · simp [h]
    · simp [h, ih]

/-- C2: when the listing for the stored user comes back with status 200, Read
removes the state exactly when no listed role has an identifier printing as the
stored `role_id`; when such a role is listed, Read reports no diagnostic and
writes the stored record back unchanged. -/
theorem assignment_read_absent_iff_role_missing (r : UserRoleAssignmentResource)
    (state : UserRoleAssignmentResourceModel) (resp : client.GetUserRolesResponse)
    (roles : Slice client.Role)
    (hcall : r.client.GetUserRolesWithResponse state.UserID.ValueString = .ok resp)
    (hstatus : resp.StatusCode = 200) (hroles : resp.JSON200 = some roles) :
    ((UserRoleAssignmentResource.Read r state).Resp.State = none
        ↔ ¬ ∃ role ∈ roles.toList, role.Id.String = state.RoleID.ValueString)
    ∧ ((∃ role ∈ roles.toList, role.Id.String = state.RoleID.ValueString) →
        (UserRoleAssignmentResource.Read r state).Resp
          = { Diagnostics := [], State := some state }) := by
  have hfound := Read.found_iff state.RoleID.ValueString roles.toList
  by_cases hex : ∃ role ∈ roles.toList, role.Id.String = state.RoleID.ValueString
  · have hf := hfound.mpr hex
    simp [UserRoleAssignmentResource.Read, hcall, hstatus, hroles, hf, hex]
  · have hf : UserRoleAssignmentResource.Read.found state.RoleID.ValueString roles.toList
        = false := by
      cases hb : UserRoleAssignmentResource.Read.found state.RoleID.ValueString roles.toList
      · rfl
      · exact absurd (hfound.mp hb) hex
    simp [UserRoleAssignmentResource.Read, hcall, hstatus, hroles, hf, hex]

/-- C2 at a listing that holds the stored role: the call returns it with status
200 and Read keeps the stored record. -/
theorem assignment_read_absent_iff_role_missing_witness :
    (stubClient 200 (.of [sampleRole]) ⟨200, none, none⟩).GetUserRolesWithResponse "u1"
      = .ok { HTTPResponse := some { StatusCode := 200, ContentLength := 0, Body := "" },
              JSON200 := some (.of [sampleRole]), JSON404 := none }
    ∧ (UserRoleAssignmentResource.Read
        ⟨stubClient 200 (.of [sampleRole]) ⟨200, none, none⟩⟩ sampleAssignment).Resp
      = { Diagnostics := [], State := some sampleAssignment } :=
  ⟨rfl,
   (assignment_read_absent_iff_role_missing
      ⟨stubClient 200 (.of [sampleRole]) ⟨200, none, none⟩⟩ sampleAssignment
      { HTTPResponse := some { StatusCode := 200, ContentLength := 0, Body := "" },
        JSON200 := some (.of [sampleRole]), JSON404 := none }
      (.of [sampleRole]) rfl rfl rfl).2 ⟨sampleRole, by simp [Slice.toList], rfl⟩⟩

/-! ## Delete of the role -/

/-- C3: when the delete-role call returns without a transport error, Delete
reports no error exactly when the status is 200, 204 or 404; so a repeated Delete
that is answered 404 reports success. -/
theorem role_delete_ok_iff_status (r : RoleResource) (state : RoleResourceModel)
    (apiResp : client.RoleResponse)
    (hcall : r.client.DeleteRoleWithResponse state.ID.ValueString = .ok apiResp) :
    diag.HasError (RoleResource.Delete r state).Resp.Diagnostics = false
      ↔ (apiResp.StatusCode = 200 ∨ apiResp.StatusCode = 204 ∨ apiResp.StatusCode = 404) := by
  by_cases h : apiResp.StatusCode ≠ 200 ∧ apiResp.StatusCode ≠ 204 ∧ apiResp.StatusCode ≠ 404
  · have hn : ¬ (apiResp.StatusCode = 200 ∨ apiResp.StatusCode = 204 ∨ apiResp.StatusCode = 404) := by
      rintro (h1 | h1 | h1)
      · exact h.1 h1
      · exact h.2.1 h1
      · exact h.2.2 h1
    simp [RoleResource.Delete, hcall, h, hn, diag.AddError, diag.HasError]
  · have hy : apiResp.StatusCode = 200 ∨ apiResp.StatusCode = 204 ∨ apiResp.StatusCode = 404 := by
      by_contra hc
      exact h ⟨fun e => hc (Or.inl e), fun e => hc (Or.inr (Or.inl e)),
        fun e => hc (Or.inr (Or.inr e))⟩
    simp [RoleResource.Delete, hcall, h, hy, diag.HasError]

/-- C3 at a second Delete answered with 404: no error is reported. -/
theorem role_delete_ok_iff_status_witness :
    (stubClient 404 .null ⟨404, none, none⟩).DeleteRoleWithResponse
        sampleStoredRole.ID.ValueString = .ok ⟨404, none, none⟩
    ∧ diag.HasError (RoleResource.Delete ⟨stubClient 404 .null ⟨404, none, none⟩⟩
        sampleStoredRole).Resp.Diagnostics = false :=
  ⟨rfl,
   (role_delete_ok_iff_status ⟨stubClient 404 .null ⟨404, none, none⟩⟩ sampleStoredRole
      ⟨404, none, none⟩ rfl).mpr (Or.inr (Or.inr rfl))⟩

/-! ## ImportState of the assignment on malformed identifiers -/

/-- C4 does not hold as stated: `":r1"` does not split into two non-empty parts
(its first part is empty), yet ImportState reports no diagnostic and sets all
three attributes. -/
theorem import_empty_part_accepted :
    (¬ ∃ p q : GoString, strings.Split ":r1" ':' = [p, q] ∧ p ≠ "" ∧ q ≠ "")
    ∧ (UserRoleAssignmentResource.ImportState ⟨failingClient "offline"⟩ ":r1").Resp
      = { Diagnostics := [],
          State := { ID := .value ":r1", UserID := .value "", RoleID := .value "r1" } } := by
  have hs : strings.Split ":r1" ':' = ["", "r1"] := by decide
  refine ⟨?_, rfl⟩
  rintro ⟨p, q, h, hp, _⟩
  rw [hs] at h
  simp only [List.cons.injEq] at h
  exact hp h.1.symm

/-- C4 as amended: an import string whose split on `:` does not have exactly two
parts makes ImportState report an error, leave every state attribute unset and
invoke no client operation. -/
theorem import_rejects_unless_two_parts (r : UserRoleAssignmentResource) (reqID : GoString)
    (h : (strings.Split reqID ':').length ≠ 2) :
    diag.HasError (UserRoleAssignmentResource.ImportState r reqID).Resp.Diagnostics = true
    ∧ (UserRoleAssignmentResource.ImportState r reqID).Resp.State
        = UserRoleAssignmentResourceModel.empty
    ∧ (UserRoleAssignmentResource.ImportState r reqID).Calls = [] := by
  unfold UserRoleAssignmentResource.ImportState
  split
  · next p q heq => simp [heq] at h
  · simp [diag.AddError, diag.HasError]

/-- C4 as amended, at `"u1:r1:extra"` (three parts). -/
theorem import_rejects_unless_two_parts_witness :
    (strings.Split "u1:r1:extra" ':').length ≠ 2
    ∧ diag.HasError (UserRoleAssignmentResource.ImportState ⟨failingClient "offline"⟩
        "u1:r1:extra").Resp.Diagnostics = true
    ∧ (UserRoleAssignmentResource.ImportState ⟨failingClient "offline"⟩ "u1:r1:extra").Resp.State
        = UserRoleAssignmentResourceModel.empty
    ∧ (UserRoleAssignmentResource.ImportState ⟨failingClient "offline"⟩ "u1:r1:extra").Calls
        = [] :=
  ⟨by decide,
   import_rejects_unless_two_parts ⟨failingClient "offline"⟩ "u1:r1:extra" (by decide)⟩

/-! ## Create of the assignment -/

/-- C5 does not hold as stated: with a well-formed `role_id` and a client whose
create-assignment operation accepts the pair, Create for an empty `user_id`, and
for a `user_id` that contains `:`, reports no error and writes the state record. -/
theorem create_accepts_invalid_user_id :
    ((stubClient 201 .null ⟨201, none, none⟩).CreateUserRoleAssignmentWithResponse ""
        { RoleID := { text := sampleRoleID } }
      = .ok { HTTPResponse := some { StatusCode := 201, ContentLength := 0, Body := "" },
              JSON200 := some { UserID := openapi_types.UUID.zero,
                                RoleID := openapi_types.UUID.zero },
              JSON404 := none }
      ∧ (UserRoleAssignmentResource.Create ⟨stubClient 201 .null ⟨201, none, none⟩⟩
          { ID := .unknown, UserID := .value "", RoleID := .value sampleRoleID }).Resp
        = { Diagnostics := [],
            State := some { ID := .value (":" ++ sampleRoleID), UserID := .value "",
                            RoleID := .value sampleRoleID } })
    ∧ ((stubClient 201 .null ⟨201, none, none⟩).CreateUserRoleAssignmentWithResponse "a:b"
        { RoleID := { text := sampleRoleID } }
      = .ok { HTTPResponse := some { StatusCode := 201, ContentLength := 0, Body := "" },
              JSON200 := some { UserID := openapi_types.UUID.zero,
                                RoleID := openapi_types.UUID.zero },
              JSON404 := none }
      ∧ (UserRoleAssignmentResource.Create ⟨stubClient 201 .null ⟨201, none, none⟩⟩
          { ID := .unknown, UserID := .value "a:b", RoleID := .value sampleRoleID }).Resp
        = { Diagnostics := [],
            State := some { ID := .value ("a:b:" ++ sampleRoleID), UserID := .value "a:b",
                            RoleID := .value sampleRoleID } }) :=
  ⟨⟨rfl, rfl⟩, ⟨rfl, rfl⟩⟩

/-- C5 as amended: building the identifier does not reject a `user_id` that is
empty or contains `:`. Whenever the `role_id` parses as a role identifier and the
client's create-assignment operation returns for the pair without a transport
error, Create for such a `user_id` reports no error and writes the state record
with `id = user_id ++ ":" ++ role_id`. Nothing is stated for a `role_id` that does
not parse or for a call that fails. -/
theorem create_accepts_any_user_id (r : UserRoleAssignmentResource)
    (planID : types.String) (u role : GoString) (roleUUID : openapi_types.UUID)
    (resp : client.UserRoleAssignmentResponse)
    (hu : u = "" ∨ ':' ∈ u.data)
    (hparse : r.client.ParseUUID role = .ok roleUUID)
    (hcall : r.client.CreateUserRoleAssignmentWithResponse u { RoleID := roleUUID }
      = .ok resp) :
    diag.HasError (UserRoleAssignmentResource.Create r
        { ID := planID, UserID := .value u, RoleID := .value role }).Resp.Diagnostics = false
    ∧ (UserRoleAssignmentResource.Create r
        { ID := planID, UserID := .value u, RoleID := .value role }).Resp.State
      = some { ID := .value (u ++ ":" ++ role), UserID := .value u, RoleID := .value role } := by
  have _ := hu
  have _ := hparse
  have _ := hcall
  exact ⟨rfl, rfl⟩

/-- C5 as amended, at an empty `user_id`, a `role_id` in UUID form and a client
that answers the create-assignment request with status 201. -/
theorem create_accepts_any_user_id_witness :
    diag.HasError (UserRoleAssignmentResource.Create ⟨stubClient 201 .null ⟨201, none, none⟩⟩
        { ID := .unknown, UserID := .value "", RoleID := .value sampleRoleID }).Resp.Diagnostics
      = false
    ∧ (UserRoleAssignmentResource.Create ⟨stubClient 201 .null ⟨201, none, none⟩⟩
        { ID := .unknown, UserID := .value "", RoleID := .value sampleRoleID }).Resp.State
      = some { ID := .value ("" ++ ":" ++ sampleRoleID), UserID := .value "",
               RoleID := .value sampleRoleID } :=
  create_accepts_any_user_id ⟨stubClient 201 .null ⟨201, none, none⟩⟩ .unknown ""
    sampleRoleID { text := sampleRoleID }
    { HTTPResponse := some { StatusCode := 201, ContentLength := 0, Body := "" },
      JSON200 := some { UserID := openapi_types.UUID.zero, RoleID := openapi_types.UUID.zero },
      JSON404 := none }
    (Or.inl rfl) rfl rfl

/-- C6, the code at status 500: the delete-assignment call returns a response with
status 500 and no transport error, and Delete reports no error. -/
theorem assignment_delete_status_500_reports_success :
    (stubClient 500 .null ⟨500, none, none⟩).DeleteUserRoleAssignmentWithResponse
        "u1" sampleRoleID
      = .ok { HTTPResponse := some { StatusCode := 500, ContentLength := 0, Body := "" },
              JSON200 := none, JSON404 := none }
    ∧ (UserRoleAssignmentResource.Delete ⟨stubClient 500 .null ⟨500, none, none⟩⟩
        sampleAssignment).Resp.Diagnostics = []
    ∧ diag.HasError (UserRoleAssignmentResource.Delete ⟨stubClient 500 .null ⟨500, none, none⟩⟩
        sampleAssignment).Resp.Diagnostics = false :=
  ⟨rfl, rfl, rfl⟩

/-- C7, the code at a client whose transport is down: the create-assignment
operation of the client would fail, but Create invokes no client operation,
reports no error and writes the state record. -/
theorem assignment_create_makes_no_call :
    (failingClient "connection refused").CreateUserRoleAssignmentWithResponse "u1"
        { RoleID := { text := sampleRoleID } } = .error "connection refused"
    ∧ (UserRoleAssignmentResource.Create ⟨failingClient "connection refused"⟩
        { ID := .unknown, UserID := .value "u1", RoleID := .value sampleRoleID }).Calls = []
    ∧ (UserRoleAssignmentResource.Create ⟨failingClient "connection refused"⟩
        { ID := .unknown, UserID := .value "u1", RoleID := .value sampleRoleID }).Resp
      = { Diagnostics := [], State := some sampleAssignment } :=
  ⟨rfl, rfl, rfl⟩

/-- C8: whenever Create reports no error for `user_id = u` and `role_id = r`, the
state record it writes has `id = u ++ ":" ++ r` and keeps `user_id` and `role_id`
as desired. -/
theorem assignment_create_state (r : UserRoleAssignmentResource) (planID : types.String)
    (u role : GoString)
    (hok : diag.HasError (UserRoleAssignmentResource.Create r
        { ID := planID, UserID := .value u, RoleID := .value role }).Resp.Diagnostics = false) :
    (UserRoleAssignmentResource.Create r
        { ID := planID, UserID := .value u, RoleID := .value role }).Resp.State
      = some { ID := .value (u ++ ":" ++ role), UserID := .value u, RoleID := .value role } := by
  have _ := hok
  rfl

/-- C8 at `user_id = "u1"`, `role_id = "r1"`: the state id is `"u1:r1"`. -/
theorem assignment_create_state_witness :
    diag.HasError (UserRoleAssignmentResource.Create ⟨stubClient 201 .null ⟨201, none, none⟩⟩
        { ID := .unknown, UserID := .value "u1", RoleID := .value "r1" }).Resp.Diagnostics = false
    ∧ (UserRoleAssignmentResource.Create ⟨stubClient 201 .null ⟨201, none, none⟩⟩
        { ID := .unknown, UserID := .value "u1", RoleID := .value "r1" }).Resp.State
      = some { ID := .value "u1:r1", UserID := .value "u1", RoleID := .value "r1" } :=
  ⟨rfl,
   assignment_create_state ⟨stubClient 201 .null ⟨201, none, none⟩⟩ .unknown "u1" "r1" rfl⟩

/-! ## Read and Update of the role -/

theorem foldl_append_of {α β : Type} (f : α → β) (l : List α) (acc : List β) :
    l.foldl (fun (s : Slice β) p => s.append (f p)) (.of acc) = .of (acc ++ l.map f) := by
  induction l generalizing acc with
  | nil => simp
  | cons x xs ih =>
    rw [List.foldl_cons]
    have hstep : (Slice.of acc).append (f x) = .of (acc ++ [f x]) := rfl
    rw [hstep, ih]
    simp

theorem statePermissions_eq (role : client.Role) :
    RoleResource.statePermissions role
      = .of (role.Permissions.toList.map types.String.value) := by
  unfold RoleResource.statePermissions
  simpa using foldl_append_of types.String.value role.Permissions.toList []

/-- C9: when the fetch returns a 200 payload, Read writes the stored id together
with the payload's name, the payload's description (null when it has none) and
the payload's permissions in order; two stored records with the same id and the
same payload lead to the same response, whatever their other fields were. -/
theorem role_read_state_from_payload (r : RoleResource) (prior1 prior2 : RoleResourceModel)
    (apiResp : client.RoleResponse) (role : client.Role)
    (hid : prior1.ID = prior2.ID)
    (hcall : r.client.GetRoleWithResponse prior1.ID.ValueString = .ok apiResp)
    (hstatus : apiResp.StatusCode = 200) (hpayload : apiResp.JSON200 = some role) :
    (RoleResource.Read r prior1).Resp
      = { Diagnostics := [],
          State := some
            { ID := prior1.ID,
              Name := .value role.Name,
              Description :=
                match role.Description with
                | some d => .value d
                | none => .null,
              Permissions := .of (role.Permissions.toList.map types.String.value) } }
    ∧ (RoleResource.Read r prior1).Resp = (RoleResource.Read r prior2).Resp := by
  have hcall2 : r.client.GetRoleWithResponse prior2.ID.ValueString = .ok apiResp := by
    rw [← hid]; exact hcall
  cases hd : role.Description <;>
    simp [RoleResource.Read, hcall, hcall2, hstatus, hpayload, hd, statePermissions_eq, hid]

/-- C9 at two stored records that share the id and differ in every other field:
both Reads write the payload's values. -/
theorem role_read_state_from_payload_witness :
    sampleStoredRole.ID = samplePlannedRole.ID
    ∧ (RoleResource.Read ⟨stubClient 200 .null ⟨200, some sampleRoleBare, none⟩⟩
        sampleStoredRole).Resp
      = { Diagnostics := [],
          State := some { ID := .value sampleRoleID, Name := .value "viewer",
                          Description := .null, Permissions := .of [.value "agents:read"] } }
    ∧ (RoleResource.Read ⟨stubClient 200 .null ⟨200, some sampleRoleBare, none⟩⟩
        sampleStoredRole).Resp
      = (RoleResource.Read ⟨stubClient 200 .null ⟨200, some sampleRoleBare, none⟩⟩
        samplePlannedRole).Resp :=
  ⟨rfl,
   role_read_state_from_payload ⟨stubClient 200 .null ⟨200, some sampleRoleBare, none⟩⟩
     sampleStoredRole samplePlannedRole ⟨200, some sampleRoleBare, none⟩ sampleRoleBare
     rfl rfl rfl rfl⟩

/-- C10, the code at a 200 payload without a description and a desired record with
one: Update writes the desired description, Read from the same stored id and the
same payload writes a null description, and the two state records differ. -/
theorem role_update_keeps_planned_description :
    (RoleResource.Update ⟨stubClient 200 .null ⟨200, some sampleRoleBare, none⟩⟩
        samplePlannedRole sampleStoredRole).Resp
      = { Diagnostics := [],
          State := some { ID := .value sampleRoleID, Name := .value "viewer",
                          Description := .value "read-only access",
                          Permissions := .of [.value "agents:read"] } }
    ∧ (RoleResource.Read ⟨stubClient 200 .null ⟨200, some sampleRoleBare, none⟩⟩
        sampleStoredRole).Resp
      = { Diagnostics := [],
          State := some { ID := .value sampleRoleID, Name := .value "viewer",
                          Description := .null,
                          Permissions := .of [.value "agents:read"] } }
    ∧ (RoleResource.Update ⟨stubClient 200 .null ⟨200, some sampleRoleBare, none⟩⟩
        samplePlannedRole sampleStoredRole).Resp.State
      ≠ (RoleResource.Read ⟨stubClient 200 .null ⟨200, some sampleRoleBare, none⟩⟩
        sampleStoredRole).Resp.State := by
  refine ⟨rfl, rfl, ?_⟩
  decide

/-! ## Create of the role -/

theorem Create_calls (r : RoleResource) (plan : RoleResourceModel) :
    (RoleResource.Create r plan).Calls
      = [GatewayCall.CreateRole (RoleResource.createRequestBody plan)] := by
  unfold RoleResource.Create RoleResource.createRequestBody
  by_cases hn : plan.Description.IsNull = true
  · simp only [hn]
    split
    · rfl
    · split <;> rfl
  · simp only [hn]
    split
    · rfl
    · split <;> rfl

theorem Create_of_payload (r : RoleResource) (plan : RoleResourceModel)
    (apiResp : client.RoleResponse) (role : client.Role)
    (hcall : r.client.CreateRoleWithResponse (RoleResource.createRequestBody plan)
      = .ok apiResp)
    (hpayload : apiResp.JSON201 = some role) :
    (RoleResource.Create r plan).Resp
      = { Diagnostics := [],
          State := some
            { ID := .value role.Id.String,
              Name := .value role.Name,
              Description :=
                match role.Description with
                | some d => .value d
                | none => .null,
              Permissions := .of (role.Permissions.toList.map types.String.value) } } := by
  cases hn : plan.Description.IsNull <;> cases hd : role.Description <;>
    simp [RoleResource.createRequestBody, hn] at hcall <;>
    simp [RoleResource.Create, hn, hcall, hpayload, hd, statePermissions_eq]

/-- C11: when the create call returns a 201 payload, Create reports no diagnostic
and writes the payload's id, name, description (null when the payload has none)
and permissions in payload order; two Creates whose calls return the same payload
give the same response, whatever their desired records were. -/
theorem role_create_state_from_payload (r1 r2 : RoleResource) (plan1 plan2 : RoleResourceModel)
    (resp1 resp2 : client.RoleResponse) (role : client.Role)
    (hcall1 : r1.client.CreateRoleWithResponse (RoleResource.createRequestBody plan1)
      = .ok resp1)
    (hpayload1 : resp1.JSON201 = some role)
    (hcall2 : r2.client.CreateRoleWithResponse (RoleResource.createRequestBody plan2)
      = .ok resp2)
    (hpayload2 : resp2.JSON201 = some role) :
    (RoleResource.Create r1 plan1).Resp
      = { Diagnostics := [],
          State := some
            { ID := .value role.Id.String,
              Name := .value role.Name,
              Description :=
                match role.Description with
                | some d => .value d
                | none => .null,
              Permissions := .of (role.Permissions.toList.map types.String.value) } }
    ∧ (RoleResource.Create r1 plan1).Resp = (RoleResource.Create r2 plan2).Resp := by
  rw [Create_of_payload r1 plan1 resp1 role hcall1 hpayload1,
    Create_of_payload r2 plan2 resp2 role hcall2 hpayload2]
  exact ⟨rfl, rfl⟩

/-- C11 at two desired records that differ in every field and a payload without a
description: both Creates write the payload's values, with a null description. -/
theorem role_create_state_from_payload_witness :
    (RoleResource.Create ⟨stubClient 201 .null ⟨201, none, some sampleRoleBare⟩⟩
        samplePlannedRole).Resp
      = { Diagnostics := [],
          State := some { ID := .value sampleRoleID, Name := .value "viewer",
                          Description := .null, Permissions := .of [.value "agents:read"] } }
    ∧ (RoleResource.Create ⟨stubClient 201 .null ⟨201, none, some sampleRoleBare⟩⟩
        samplePlannedRole).Resp
      = (RoleResource.Create ⟨stubClient 201 .null ⟨201, none, some sampleRoleBare⟩⟩
        sampleStoredRole).Resp :=
  role_create_state_from_payload
    ⟨stubClient 201 .null ⟨201, none, some sampleRoleBare⟩⟩
    ⟨stubClient 201 .null ⟨201, none, some sampleRoleBare⟩⟩
    samplePlannedRole sampleStoredRole
    ⟨201, none, some sampleRoleBare⟩ ⟨201, none, some sampleRoleBare⟩ sampleRoleBare
    rfl rfl rfl rfl

/-- C12: when the create-role call fails in transport, or returns a response
without a 201 payload (whatever the status), Create reports an error and leaves
the state unwritten. -/
theorem role_create_failure_writes_no_state (r : RoleResource) (plan : RoleResourceModel)
    (hfail :
      (∃ err, r.client.CreateRoleWithResponse (RoleResource.createRequestBody plan)
          = .error err)
      ∨ (∃ apiResp, r.client.CreateRoleWithResponse (RoleResource.createRequestBody plan)
          = .ok apiResp ∧ apiResp.JSON201 = none)) :
    diag.HasError (RoleResource.Create r plan).Resp.Diagnostics = true
    ∧ (RoleResource.Create r plan).Resp.State = none := by
  rcases hfail with ⟨err, hcall⟩ | ⟨apiResp, hcall, hnone⟩
  · cases hn : plan.Description.IsNull <;>
      simp [RoleResource.createRequestBody, hn] at hcall <;>
      simp [RoleResource.Create, hn, hcall, diag.AddError, diag.HasError]
  · cases hn : plan.Description.IsNull <;>
      simp [RoleResource.createRequestBody, hn] at hcall <;>
      simp [RoleResource.Create, hn, hcall, hnone, diag.AddError, diag.HasError]

/-- C12 at a transport failure, and at a status-200 response that carries a 200
payload but no 201 payload. -/
theorem role_create_failure_writes_no_state_witness :
    (diag.HasError (RoleResource.Create ⟨failingClient "connection refused"⟩
        samplePlannedRole).Resp.Diagnostics = true
      ∧ (RoleResource.Create ⟨failingClient "connection refused"⟩
        samplePlannedRole).Resp.State = none)
    ∧ (diag.HasError (RoleResource.Create ⟨stubClient 200 .null ⟨200, some sampleRole, none⟩⟩
        samplePlannedRole).Resp.Diagnostics = true
      ∧ (RoleResource.Create ⟨stubClient 200 .null ⟨200, some sampleRole, none⟩⟩
        samplePlannedRole).Resp.State = none) :=
  ⟨role_create_failure_writes_no_state ⟨failingClient "connection refused"⟩ samplePlannedRole
     (Or.inl ⟨"connection refused", rfl⟩),
   role_create_failure_writes_no_state ⟨stubClient 200 .null ⟨200, some sampleRole, none⟩⟩
     samplePlannedRole (Or.inr ⟨⟨200, some sampleRole, none⟩, rfl, rfl⟩)⟩

/-! ## The request body of Update -/

theorem foldl_append_toList {α β : Type} (f : α → β) (l : List α) (s0 : Slice β) :
    (l.foldl (fun (s : Slice β) p => s.append (f p)) s0).toList = s0.toList ++ l.map f := by
  induction l generalizing s0 with
  | nil => simp
  | cons x xs ih =>
    rw [List.foldl_cons, ih]
    have hstep : (s0.append (f x)).toList = s0.toList ++ [f x] := rfl
    rw [hstep]
    simp

theorem requestPermissions_toList (desired : Slice types.String) :
    (RoleResource.requestPermissions desired).toList
      = desired.toList.map types.String.ValueString := by
  unfold RoleResource.requestPermissions
  rw [foldl_append_toList]
  rfl

theorem updateRequestBody_fields (plan : RoleResourceModel) :
    (RoleResource.updateRequestBody plan).Name = some plan.Name.ValueString
    ∧ (RoleResource.updateRequestBody plan).Permissions
        = some (RoleResource.requestPermissions plan.Permissions)
    ∧ ((RoleResource.updateRequestBody plan).Description.isSome = true
        ↔ plan.Description.IsNull = false)
    ∧ (plan.Description.IsNull = false →
        (RoleResource.updateRequestBody plan).Description
          = some plan.Description.ValueString) := by
  cases hn : plan.Description.IsNull <;> simp [RoleResource.updateRequestBody, hn]

theorem Update_calls (r : RoleResource) (plan prior : RoleResourceModel) :
    (RoleResource.Update r plan prior).Calls
      = [GatewayCall.UpdateRole plan.ID.ValueString (RoleResource.updateRequestBody plan)] := by
  unfold RoleResource.Update RoleResource.updateRequestBody
  cases hn : plan.Description.IsNull
  · simp only [hn]
    split
    · rfl
    · split <;> rfl
  · simp only [hn]
    split
    · rfl
    · split <;> rfl

theorem Update_of_error (r : RoleResource) (plan prior : RoleResourceModel) (err : GoString)
    (hcall : r.client.UpdateRoleWithResponse plan.ID.ValueString
        (RoleResource.updateRequestBody plan) = .error err) :
    (RoleResource.Update r plan prior).Resp
      = { Diagnostics := diag.AddError [] "API Error" ("Unable to update role: " ++ err),
          State := some prior } := by
  cases hn : plan.Description.IsNull <;>
    simp [RoleResource.updateRequestBody, hn] at hcall <;>
    simp [RoleResource.Update, hn, hcall]

theorem Update_of_no_payload (r : RoleResource) (plan prior : RoleResourceModel)
    (apiResp : client.RoleResponse)
    (hcall : r.client.UpdateRoleWithResponse plan.ID.ValueString
        (RoleResource.updateRequestBody plan) = .ok apiResp)
    (hnone : apiResp.JSON200 = none) :
    (RoleResource.Update r plan prior).Resp
      = { Diagnostics := diag.AddError [] "Unexpected API Response"
            ("Expected 200 OK, got status " ++ toString apiResp.StatusCode),
          State := some prior } := by
  cases hn : plan.Description.IsNull <;>
    simp [RoleResource.updateRequestBody, hn] at hcall <;>
    simp [RoleResource.Update, hn, hcall, hnone]

theorem Update_of_payload (r : RoleResource) (plan prior : RoleResourceModel)
    (apiResp : client.RoleResponse) (role : client.Role)
    (hcall : r.client.UpdateRoleWithResponse plan.ID.ValueString
        (RoleResource.updateRequestBody plan) = .ok apiResp)
    (hpayload : apiResp.JSON200 = some role) :
    (RoleResource.Update r plan prior).Resp
      = { Diagnostics := [],
          State := some
            { ID := plan.ID,
              Name := .value role.Name,
              Description :=
                match role.Description with
                | some d => .value d
                | none => plan.Description,
              Permissions := .of (role.Permissions.toList.map types.String.value) } } := by
  cases hn : plan.Description.IsNull <;> cases hd : role.Description <;>
    simp [RoleResource.updateRequestBody, hn] at hcall <;>
    simp [RoleResource.Update, hn, hcall, hpayload, hd, statePermissions_eq]

/-- C13 does not hold as stated: for a desired permission list with a null
element, the body that Update sends carries `""` in its place, so the list sent is
not the desired list. The client used here answers only that exact identifier and
body, and Update gets its answer. -/
theorem role_update_null_permission_sent_empty :
    (RoleResource.updateRequestBody (sampleNullElementRole (.value sampleRoleID))).Permissions
      = some (.of ["agents:read", ""])
    ∧ (["agents:read", ""] : List GoString).map types.String.value
      ≠ (sampleNullElementRole (.value sampleRoleID)).Permissions.toList
    ∧ (RoleResource.Update
        ⟨exactingClient sampleRoleID
          { Name := some "Test Role", Description := some "Test Description",
            Permissions := some (.of ["agents:read", ""]) }
          ⟨200, some sampleRole, none⟩⟩
        (sampleNullElementRole (.value sampleRoleID)) sampleStoredRole).Resp.Diagnostics = [] := by
  refine ⟨rfl, by decide, ?_⟩
  rfl

/-- C13 as amended: for every desired record, Update calls the update operation
for the desired id with a body that carries the desired name, carries for each
desired permission, in order, its `ValueString()` (so the desired list itself
whenever all its elements are known strings; a null element is sent as `""`), and
carries a description exactly when the desired description is not null, which is
then the desired value. The response of Update is decided by what the client
answers to that identifier and that body: a transport error is reported, a
response without a 200 payload is reported, and a 200 payload is written. -/
theorem role_update_sends_body (r : RoleResource) (plan prior : RoleResourceModel) :
    (RoleResource.updateRequestBody plan).Name = some plan.Name.ValueString
    ∧ (∃ perms, (RoleResource.updateRequestBody plan).Permissions = some perms
        ∧ perms.toList = plan.Permissions.toList.map types.String.ValueString
        ∧ (∀ ps : List GoString, plan.Permissions.toList = ps.map types.String.value →
            perms.toList = ps))
    ∧ ((RoleResource.updateRequestBody plan).Description.isSome = true
        ↔ plan.Description.IsNull = false)
    ∧ (plan.Description.IsNull = false →
        (RoleResource.updateRequestBody plan).Description
          = some plan.Description.ValueString)
    ∧ (RoleResource.Update r plan prior).Calls
        = [GatewayCall.UpdateRole plan.ID.ValueString (RoleResource.updateRequestBody plan)]
    ∧ (∀ err, r.client.UpdateRoleWithResponse plan.ID.ValueString
          (RoleResource.updateRequestBody plan) = .error err →
        (RoleResource.Update r plan prior).Resp
          = { Diagnostics := diag.AddError [] "API Error" ("Unable to update role: " ++ err),
              State := some prior })
    ∧ (∀ apiResp, r.client.UpdateRoleWithResponse plan.ID.ValueString
          (RoleResource.updateRequestBody plan) = .ok apiResp →
        apiResp.JSON200 = none →
        (RoleResource.Update r plan prior).Resp
          = { Diagnostics := diag.AddError [] "Unexpected API Response"
                ("Expected 200 OK, got status " ++ toString apiResp.StatusCode),
              State := some prior })
    ∧ (∀ apiResp role, r.client.UpdateRoleWithResponse plan.ID.ValueString
          (RoleResource.updateRequestBody plan) = .ok apiResp →
        apiResp.JSON200 = some role →
        (RoleResource.Update r plan prior).Resp
          = { Diagnostics := [],
              State := some
                { ID := plan.ID,
                  Name := .value role.Name,
                  Description :=
                    match role.Description with
                    | some d => .value d
                    | none => plan.Description,
                  Permissions := .of (role.Permissions.toList.map types.String.value) } }) := by
  obtain ⟨hname, hperms, hiff, hdesc⟩ := updateRequestBody_fields plan
  refine ⟨hname, ⟨_, hperms, requestPermissions_toList _, ?_⟩, hiff, hdesc,
    Update_calls r plan prior, fun err h => Update_of_error r plan prior err h,
    fun apiResp h hn => Update_of_no_payload r plan prior apiResp h hn,
    fun apiResp role h hp => Update_of_payload r plan prior apiResp role h hp⟩
  intro ps hps
  rw [requestPermissions_toList, hps]
  simp [Function.comp_def, types.String.ValueString]

/-- C13 as amended, at a client that answers only the desired id with the body
holding the desired name, description and permissions, and fails on any other
request: Update receives the 200 payload and writes it. -/
theorem role_update_sends_body_witness :
    (RoleResource.Update
        ⟨exactingClient sampleRoleID
          { Name := some "viewer", Description := some "read-only access",
            Permissions := some (.of ["agents:read"]) }
          ⟨200, some sampleRole, none⟩⟩
        samplePlannedRole sampleStoredRole).Resp
      = { Diagnostics := [],
          State := some { ID := .value sampleRoleID, Name := .value "viewer",
                          Description := .value "read-only access",
                          Permissions := .of [.value "agents:read"] } } :=
  (role_update_sends_body
      ⟨exactingClient sampleRoleID
        { Name := some "viewer", Description := some "read-only access",
          Permissions := some (.of ["agents:read"]) }
        ⟨200, some sampleRole, none⟩⟩
      samplePlannedRole sampleStoredRole).2.2.2.2.2.2.2
    ⟨200, some sampleRole, none⟩ sampleRole rfl rfl

/-! ## Read of the role on responses without a payload -/

/-- C14: when the fetch returns a response with status 404, Read removes the
resource and reports no diagnostic; when it returns any other response without a
200 payload, Read reports an error and leaves the stored record in place. -/
theorem role_read_not_found_or_unexpected (r : RoleResource) (state : RoleResourceModel)
    (apiResp : client.RoleResponse)
    (hcall : r.client.GetRoleWithResponse state.ID.ValueString = .ok apiResp) :
    (apiResp.StatusCode = 404 →
        (RoleResource.Read r state).Resp = { Diagnostics := [], State := none })
    ∧ (apiResp.StatusCode ≠ 404 → apiResp.JSON200 = none →
        diag.HasError (RoleResource.Read r state).Resp.Diagnostics = true
        ∧ (RoleResource.Read r state).Resp.State = some state) := by
  constructor
  · intro h404
    simp [RoleResource.Read, hcall, h404]
  · intro hne hnone
    simp [RoleResource.Read, hcall, hne, hnone, diag.AddError, diag.HasError]

/-- C14 at status 404 (removal without a diagnostic) and at status 500 without a
payload (an error, with the stored record kept). -/
theorem role_read_not_found_or_unexpected_witness :
    (RoleResource.Read ⟨stubClient 404 .null ⟨404, none, none⟩⟩ sampleStoredRole).Resp
      = { Diagnostics := [], State := none }
    ∧ diag.HasError (RoleResource.Read ⟨stubClient 500 .null ⟨500, none, none⟩⟩
        sampleStoredRole).Resp.Diagnostics = true
    ∧ (RoleResource.Read ⟨stubClient 500 .null ⟨500, none, none⟩⟩ sampleStoredRole).Resp.State
      = some sampleStoredRole :=
  ⟨(role_read_not_found_or_unexpected ⟨stubClient 404 .null ⟨404, none, none⟩⟩
      sampleStoredRole ⟨404, none, none⟩ rfl).1 rfl,
   (role_read_not_found_or_unexpected ⟨stubClient 500 .null ⟨500, none, none⟩⟩
      sampleStoredRole ⟨500, none, none⟩ rfl).2 (by decide) rfl⟩

/-! ## One payload, three writers -/

theorem Read_of_payload (r : RoleResource) (state : RoleResourceModel)
    (apiResp : client.RoleResponse) (role : client.Role)
    (hcall : r.client.GetRoleWithResponse state.ID.ValueString = .ok apiResp)
    (hstatus : apiResp.StatusCode = 200) (hpayload : apiResp.JSON200 = some role) :
    (RoleResource.Read r state).Resp
      = { Diagnostics := [],
          State := some
            { ID := state.ID,
              Name := .value role.Name,
              Description :=
                match role.Description with
                | some d => .value d
                | none => .null,
              Permissions := .of (role.Permissions.toList.map types.String.value) } } := by
  cases hd : role.Description <;>
    simp [RoleResource.Read, hcall, hstatus, hpayload, hd, statePermissions_eq]

theorem DataSource_Read_of_payload (d : RoleDataSource) (config : RoleDataSourceModel)
    (roleResp : client.RoleResponse) (role : client.Role)
    (hcall : d.client.GetRoleWithResponse config.ID.ValueString = .ok roleResp)
    (hstatus : roleResp.StatusCode = 200) (hpayload : roleResp.JSON200 = some role) :
    (RoleDataSource.Read d config).Resp
      = { Diagnostics := [],
          State := some
            { ID := config.ID,
              Name := .value role.Name,
              Description :=
                match role.Description with
                | some t => .value t
                | none => .null,
              Permissions := .of (role.Permissions.toList.map types.String.value) } } := by
  cases hd : role.Description <;>
    simp [RoleDataSource.Read, hcall, hstatus, hpayload, hd, statePermissions_eq]

/-- C15: for every role payload `p`, the name, description and permissions that
the resource's Read writes from `p` are those its Create writes from `p` and those
the data source's Read writes from `p`; when the stored id is `p`'s id, Read and
Create write the same state record. -/
theorem role_payload_written_alike (r1 r2 : RoleResource) (d : RoleDataSource)
    (prior plan : RoleResourceModel) (config : RoleDataSourceModel)
    (respR respC respD : client.RoleResponse) (p : client.Role)
    (hread : r1.client.GetRoleWithResponse prior.ID.ValueString = .ok respR)
    (hreadStatus : respR.StatusCode = 200) (hreadPayload : respR.JSON200 = some p)
    (hcreate : r2.client.CreateRoleWithResponse (RoleResource.createRequestBody plan)
      = .ok respC)
    (hcreatePayload : respC.JSON201 = some p)
    (hdata : d.client.GetRoleWithResponse config.ID.ValueString = .ok respD)
    (hdataStatus : respD.StatusCode = 200) (hdataPayload : respD.JSON200 = some p)
    (hid : prior.ID = .value p.Id.String) :
    (RoleResource.Read r1 prior).Resp.State.map
        (fun s => (s.Name, s.Description, s.Permissions))
      = some (types.String.value p.Name,
              (match p.Description with
               | some t => types.String.value t
               | none => types.String.null),
              Slice.of (p.Permissions.toList.map types.String.value))
    ∧ (RoleResource.Create r2 plan).Resp.State.map
        (fun s => (s.Name, s.Description, s.Permissions))
      = (RoleResource.Read r1 prior).Resp.State.map
        (fun s => (s.Name, s.Description, s.Permissions))
    ∧ (RoleDataSource.Read d config).Resp.State.map
        (fun s => (s.Name, s.Description, s.Permissions))
      = (RoleResource.Read r1 prior).Resp.State.map
        (fun s => (s.Name, s.Description, s.Permissions))
    ∧ (RoleResource.Create r2 plan).Resp = (RoleResource.Read r1 prior).Resp := by
  rw [Read_of_payload r1 prior respR p hread hreadStatus hreadPayload,
    Create_of_payload r2 plan respC p hcreate hcreatePayload,
    DataSource_Read_of_payload d config respD p hdata hdataStatus hdataPayload, hid]
  exact ⟨rfl, rfl, rfl, rfl⟩

/-- C15 at one payload returned with status 200 to a Read of a stored record and
to the data source, and with status 201 to a Create of a different desired record:
the three written records agree on name, description and permissions. -/
theorem role_payload_written_alike_witness :
    (RoleResource.Read ⟨stubClient 200 .null ⟨200, some sampleRole, none⟩⟩
        sampleStoredRole).Resp.State.map (fun s => (s.Name, s.Description, s.Permissions))
      = some (types.String.value "viewer", types.String.value "read-only access",
              Slice.of [types.String.value "agents:read"])
    ∧ (RoleResource.Create ⟨stubClient 201 .null ⟨201, none, some sampleRole⟩⟩
        (desiredRole .unknown "auditor" none [])).Resp.State.map
          (fun s => (s.Name, s.Description, s.Permissions))
      = (RoleResource.Read ⟨stubClient 200 .null ⟨200, some sampleRole, none⟩⟩
        sampleStoredRole).Resp.State.map (fun s => (s.Name, s.Description, s.Permissions))
    ∧ (RoleDataSource.Read ⟨stubClient 200 .null ⟨200, some sampleRole, none⟩⟩
        ⟨.value sampleRoleID, .null, .null, .null⟩).Resp.State.map
          (fun s => (s.Name, s.Description, s.Permissions))
      = (RoleResource.Read ⟨stubClient 200 .null ⟨200, some sampleRole, none⟩⟩
        sampleStoredRole).Resp.State.map (fun s => (s.Name, s.Description, s.Permissions))
    ∧ (RoleResource.Create ⟨stubClient 201 .null ⟨201, none, some sampleRole⟩⟩
        (desiredRole .unknown "auditor" none [])).Resp
      = (RoleResource.Read ⟨stubClient 200 .null ⟨200, some sampleRole, none⟩⟩
        sampleStoredRole).Resp :=
  role_payload_written_alike
    ⟨stubClient 200 .null ⟨200, some sampleRole, none⟩⟩
    ⟨stubClient 201 .null ⟨201, none, some sampleRole⟩⟩
    ⟨stubClient 200 .null ⟨200, some sampleRole, none⟩⟩
    sampleStoredRole (desiredRole .unknown "auditor" none [])
    ⟨.value sampleRoleID, .null, .null, .null⟩
    ⟨200, some sampleRole, none⟩ ⟨201, none, some sampleRole⟩
    ⟨200, some sampleRole, none⟩ sampleRole
    rfl rfl rfl rfl rfl rfl rfl rfl rfl

/-! ## Create of the role against an echoing gateway -/

theorem createRequestBody_desiredRole (planID : types.String) (name : GoString)
    (description : Option GoString) (permissions : List GoString) :
    (RoleResource.createRequestBody (desiredRole planID name description permissions)).Name
        = name
    ∧ (RoleResource.createRequestBody
        (desiredRole planID name description permissions)).Description = description
    ∧ (RoleResource.createRequestBody
        (desiredRole planID name description permissions)).Permissions.toList
        = permissions := by
  have hperm : (RoleResource.requestPermissions
      (Slice.of (permissions.map types.String.value))).toList = permissions := by
    rw [requestPermissions_toList]
    simp [Slice.toList, Function.comp_def, types.String.ValueString]
  cases description <;>
    simp [RoleResource.createRequestBody, desiredRole, types.String.IsNull,
      types.String.ValueString, hperm]

/-- C16 does not hold as stated: for a desired permission list with a null
element the request body carries `""` in its place; the gateway echoes name,
description and permissions of the body it received, and Create writes `""` where
the desired record has null, so the written record is not the desired one. -/
theorem role_create_echo_null_permission :
    (echoClient sampleRoleID).CreateRoleWithResponse
        (RoleResource.createRequestBody (sampleNullElementRole .unknown))
      = .ok { Status := 201, JSON200 := none,
              JSON201 := some
                { Id := { text := sampleRoleID },
                  Name := (RoleResource.createRequestBody (sampleNullElementRole .unknown)).Name,
                  Description :=
                    (RoleResource.createRequestBody (sampleNullElementRole .unknown)).Description,
                  Permissions :=
                    (RoleResource.createRequestBody
                      (sampleNullElementRole .unknown)).Permissions } }
    ∧ (RoleResource.Create ⟨echoClient sampleRoleID⟩ (sampleNullElementRole .unknown)).Resp
      = { Diagnostics := [],
          State := some { ID := .value sampleRoleID,
                          Name := .value "Test Role",
                          Description := .value "Test Description",
                          Permissions := .of [.value "agents:read", .value ""] } }
    ∧ (RoleResource.Create ⟨echoClient sampleRoleID⟩
        (sampleNullElementRole .unknown)).Resp.State
      ≠ some { sampleNullElementRole .unknown with ID := .value sampleRoleID } := by
  refine ⟨rfl, rfl, ?_⟩
  decide

/-- C16 as amended: when the create response is a 201 payload that echoes the
name, description and permissions of the request body, then for every desired
record whose name and permission elements are known strings and whose description
is null or a known string, Create reports no diagnostic and writes exactly the
desired name, description and permission list (same elements, same order), with
the payload's id as `id`. -/
theorem role_create_echo_gives_desired (r : RoleResource) (planID : types.String)
    (name : GoString) (description : Option GoString) (permissions : List GoString)
    (apiResp : client.RoleResponse) (role : client.Role)
    (hcall : r.client.CreateRoleWithResponse
        (RoleResource.createRequestBody (desiredRole planID name description permissions))
      = .ok apiResp)
    (hpayload : apiResp.JSON201 = some role)
    (hname : role.Name
      = (RoleResource.createRequestBody
          (desiredRole planID name description permissions)).Name)
    (hdesc : role.Description
      = (RoleResource.createRequestBody
          (desiredRole planID name description permissions)).Description)
    (hperms : role.Permissions.toList
      = (RoleResource.createRequestBody
          (desiredRole planID name description permissions)).Permissions.toList) :
    (RoleResource.Create r (desiredRole planID name description permissions)).Resp
      = { Diagnostics := [],
          State := some { desiredRole planID name description permissions with
                          ID := .value role.Id.String } } := by
  obtain ⟨h1, h2, h3⟩ := createRequestBody_desiredRole planID name description permissions
  rw [h1] at hname
  rw [h2] at hdesc
  rw [h3] at hperms
  rw [Create_of_payload r _ apiResp role hcall hpayload, hname, hdesc, hperms]
  cases description <;> rfl

/-- C16 as amended, at the scenario of the acceptance test: name `"Test Role"`, description
`"Test Description"`, permissions `["agents:read", "agents:write"]`, against a
gateway that echoes the request under the id `sampleRoleID`. -/
theorem role_create_echo_gives_desired_witness :
    (RoleResource.Create ⟨echoClient sampleRoleID⟩
        (desiredRole .unknown "Test Role" (some "Test Description")
          ["agents:read", "agents:write"])).Resp
      = { Diagnostics := [],
          State := some { ID := .value sampleRoleID,
                          Name := .value "Test Role",
                          Description := .value "Test Description",
                          Permissions := .of [.value "agents:read", .value "agents:write"] } } :=
  role_create_echo_gives_desired ⟨echoClient sampleRoleID⟩ .unknown "Test Role"
    (some "Test Description") ["agents:read", "agents:write"]
    { Status := 201, JSON200 := none,
      JSON201 := some { Id := { text := sampleRoleID }, Name := "Test Role",
                        Description := some "Test Description",
                        Permissions := .of ["agents:read", "agents:write"] } }
    { Id := { text := sampleRoleID }, Name := "Test Role",
      Description := some "Test Description",
      Permissions := .of ["agents:read", "agents:write"] }
    rfl rfl rfl rfl rfl

end Archestra
